import Mathlib

/-!
Verification development for the smartbuild damage-assessment engine.

The repository is a React frontend around a damage-assessment core.  The
deterministic engine logic lives in:
* `src/frontend/src/services/api.js` — `mockAnalyzeImage`: severity
  classification, health scoring and the fixed precaution list;
* the `Dashboard` component (concatenated into
  `src/frontend/src/components/Auth/Login.jsx`) — `computeStats` (statistics
  aggregation), `handleDeleteInspection` (history removal) and
  `getDamageType` (damage-kind labelling).

The statistics code runs on untyped JavaScript values (`insp.health_score || 0`,
string concatenation on `+`), so those parts are embedded over a small model
`JSVal` of JavaScript runtime values with the coercion rules actually exercised
by the code (truthiness, `||`, `+`, `/`, `Math.round`, `ToNumber`).
-/

namespace SmartBuild

/-- A detection-count mapping: damage kind → occurrence count, as produced by
the detector.  JavaScript objects have unique keys; the theorems hold for all
association lists, which is stronger. -/
abbrev DetectionCounts := List (String × Nat)

/-- The damage-kind penalty table from `mockAnalyzeImage`
(`src/frontend/src/services/api.js` lines 108–116).  The JS lookup is
`penalties[d] || 0`, so a kind outside the table contributes 0. -/
def penalties (k : String) : Nat :=
  if k = "major_crack" then 15
  else if k = "minor_crack" then 8
  else if k = "spalling" then 20
  else if k = "peeling" then 10
  else if k = "algae" then 5
  else if k = "stain" then 5
  else if k = "normal" then 0
  else 0

/-- `const count = Object.values(detected).reduce((a, b) => a + b, 0)`
(api.js line 103): the total number of detections. -/
def countTotal (d : DetectionCounts) : Nat :=
  (d.map Prod.snd).sum

/-- The health score of `mockAnalyzeImage` (api.js lines 105–122): start at
100; when any detection is present subtract `penalties[d] * detected[d]` for
each kind and clamp with `Math.max(score, 0)`. -/
def mockScore (d : DetectionCounts) : Int :=
  if 0 < countTotal d then
    max (d.foldl (fun s kc => s - (penalties kc.1 : Int) * kc.2) 100) 0
  else 100

/-- The severity classification of `mockAnalyzeImage` (api.js lines 104,
124–125): `"Good"` when no detection, `"Moderate"` when the total is at most
2, `"Critical"` otherwise. -/
def mockSeverity (d : DetectionCounts) : String :=
  if 0 < countTotal d then
    if countTotal d ≤ 2 then "Moderate" else "Critical"
  else "Good"

/-- The fixed precaution list of `mockAnalyzeImage` (api.js lines 128–132). -/
def mockPrecautions : List String :=
  ["Regular inspection recommended",
   "Monitor damaged areas monthly",
   "Consider professional assessment"]

/-- The result object resolved by `mockAnalyzeImage` (api.js lines 134–139). -/
structure AnalysisResult where
  detected_damages : DetectionCounts
  severity : String
  health_score : Int
  precautions : List String
deriving DecidableEq

/-- The deterministic core of `mockAnalyzeImage` (api.js lines 83–142), as a
function of the detected mapping.  The random generation of `detected`
(lines 97–101) and the `setTimeout` wrapper are the only parts outside the
model: everything after line 103 is a pure function of `detected`. -/
def mockAnalyzeImage (detected : DetectionCounts) : AnalysisResult :=
  { detected_damages := detected
    severity := mockSeverity detected
    health_score := mockScore detected
    precautions := mockPrecautions }

/-- `getDamageType` from the `Dashboard` component (Login.jsx concatenation,
lines 557–571): labels a detection mapping by which keys are present. -/
def getDamageType (damages : DetectionCounts) : String :=
  if damages.length = 0 then "No Damage"
  else
    let damageTypes := damages.map Prod.fst
    if damageTypes.contains "major_crack" || damageTypes.contains "spalling" then
      "Critical Damage"
    else if damageTypes.contains "minor_crack" || damageTypes.contains "peeling" then
      "Surface Damage"
    else
      "Minor Damage"

/-- Modelled from the spec: the DamageCatalog tier hint (`tierHintOf`, spec
§4.1) is reference data that exists in the source only through usage — the
structural kinds `major_crack` and `spalling` are the ones `getDamageType`
treats as critical, `minor_crack`/`peeling` as surface-level, and an unknown
kind degrades to `Good`. -/
def tierHintOf (k : String) : String :=
  if k = "major_crack" ∨ k = "spalling" then "Critical"
  else if k = "minor_crack" ∨ k = "peeling" then "Moderate"
  else "Good"

/-! ## JavaScript runtime values

`computeStats` and `handleDeleteInspection` operate on untyped record fields
(`insp.health_score || 0`, `(insp._id || insp.id) !== id`), so this part of the
embedding models the JavaScript values and coercions those expressions
exercise.  Numbers are rationals with an explicit NaN (`num none`); the string
branch of `+` concatenates; `ToNumber` of a non-numeric string is NaN. -/

/-- A JavaScript runtime value as used by the statistics and history code:
a number (`num none` is NaN), a string, `null` or `undefined`. -/
inductive JSVal where
  | num : Option ℚ → JSVal
  | str : String → JSVal
  | nullV : JSVal
  | undef : JSVal
deriving DecidableEq

/-- JavaScript truthiness: 0, NaN, the empty string, `null` and `undefined`
are falsy. -/
def jsTruthy : JSVal → Bool
  | .num (some q) => q ≠ 0
  | .num none => false
  | .str s => s ≠ ""
  | .nullV => false
  | .undef => false

/-- The JavaScript `||` operator: the left operand when truthy, otherwise the
right operand. -/
def jsOr (a b : JSVal) : JSVal :=
  if jsTruthy a then a else b

/-- The value of a non-empty decimal digit sequence, `none` as soon as a
non-digit character appears. -/
def digitsVal : List Char → Nat → Option Nat
  | [], acc => some acc
  | c :: rest, acc =>
      if c.isDigit then digitsVal rest (acc * 10 + (c.toNat - 48)) else none

/-- `ToNumber` on a string (`Number(s)`): the empty string is 0, an optionally
signed decimal integer literal is its value, anything else is NaN.  (JS also
accepts surrounding whitespace and fractional, exponent and hex literals; none
of those reach this path in the modelled code.) -/
def strToNumber (s : String) : Option ℚ :=
  match s.data with
  | [] => some 0
  | '-' :: c :: cs => (digitsVal (c :: cs) 0).map fun n => -(n : ℚ)
  | '+' :: c :: cs => (digitsVal (c :: cs) 0).map fun n => (n : ℚ)
  | cs => (digitsVal cs 0).map fun n => (n : ℚ)

/-- The JavaScript `ToNumber` coercion on the modelled values. -/
def toNumber : JSVal → Option ℚ
  | .num x => x
  | .str s => strToNumber s
  | .nullV => some 0
  | .undef => none

/-- Rendering a number as a string (only integral values and NaN reach this in
the modelled code paths). -/
def numToString (x : Option ℚ) : String :=
  match x with
  | none => "NaN"
  | some q => if q.den = 1 then toString q.num else toString q.num ++ "/" ++ toString q.den

/-- The JavaScript `ToString` coercion on the modelled values. -/
def jsToString : JSVal → String
  | .num x => numToString x
  | .str s => s
  | .nullV => "null"
  | .undef => "undefined"

/-- The JavaScript `+` operator: string concatenation when either operand is a
string, otherwise numeric addition with NaN propagation. -/
def jsAdd (a b : JSVal) : JSVal :=
  match a, b with
  | .str s, b => .str (s ++ jsToString b)
  | a, .str s => .str (jsToString a ++ s)
  | a, b =>
      .num (match toNumber a, toNumber b with
            | some x, some y => some (x + y)
            | _, _ => none)

/-- The JavaScript `/` operator on the modelled values.  Division by zero
(±Infinity in JS) is folded into NaN: the code only divides by a non-zero list
length, so that case is never reached. -/
def jsDiv (a b : JSVal) : JSVal :=
  .num (match toNumber a, toNumber b with
        | some x, some y => if y = 0 then none else some (x / y)
        | _, _ => none)

/-- `Math.round`: coerce to a number and round half-up (`⌊x + 1/2⌋`); NaN
propagates. -/
def jsRound (v : JSVal) : JSVal :=
  .num ((toNumber v).map fun q => ((⌊q + 1/2⌋ : ℤ) : ℚ))

/-- Strict equality `===`/`!==`: values of different types are never equal and
NaN is not strictly equal to anything, itself included. -/
def jsStrictEq (a b : JSVal) : Bool :=
  match a, b with
  | .num none, _ => false
  | _, .num none => false
  | a, b => a = b

/-! ## Statistics aggregation and history removal (`Dashboard`) -/

/-- An inspection record as consumed by `computeStats`,
`handleDeleteInspection` and `getDamageType`: the fields are untrusted data
from the backend, so `_id`, `id` and `health_score` are JavaScript values. -/
structure Inspection where
  _id : JSVal
  id : JSVal
  severity : String
  health_score : JSVal
deriving DecidableEq

/-- The statistics object built by `computeStats` (Login.jsx concatenation,
lines 405–409).  `severityCount` is kept as the literal three-entry key/value
object the source constructs. -/
structure Stats where
  totalInspections : Nat
  averageScore : JSVal
  severityCount : List (String × Nat)
deriving DecidableEq

/-- `computeStats` from the `Dashboard` component (Login.jsx concatenation,
lines 389–410): `null` (here `none`) for an empty list, otherwise the total,
the rounded average of `insp.health_score || 0`, and the severity histogram. -/
def computeStats (list : List Inspection) : Option Stats :=
  if list.length = 0 then none
  else
    let total := list.length
    let sumVal := list.foldl
      (fun sum insp => jsAdd sum (jsOr insp.health_score (.num (some 0))))
      (.num (some 0))
    let avgScore := jsDiv sumVal (.num (some (total : ℚ)))
    some
      { totalInspections := total
        averageScore := jsRound avgScore
        severityCount :=
          [("Good", (list.filter (fun i => i.severity = "Good")).length),
           ("Moderate", (list.filter (fun i => i.severity = "Moderate")).length),
           ("Critical", (list.filter (fun i => i.severity = "Critical")).length)] }

/-- The history-removal step of `handleDeleteInspection` (Login.jsx
concatenation, lines 538–541):
`inspections.filter((insp) => (insp._id || insp.id) !== id)`. -/
def removeInspection (inspections : List Inspection) (targetId : JSVal) :
    List Inspection :=
  inspections.filter (fun insp => !(jsStrictEq (jsOr insp._id insp.id) targetId))

/-! ## AssessmentBuilder and ReportExporter (spec-modelled)

The AssessmentBuilder's validation and the PDF exporter
(`generateInspectionReport` in `src/frontend/src/utils/pdfGenerator.js`) are
not part of the sources here — only their callers are — so they are modelled
from the spec's words (§4.5, §4.7, §7). -/

/-- The validation failure of the AssessmentBuilder (spec §7: "malformed input
to AssessmentBuilder (negative counts). Surfaced to the caller; never silently
corrected"). -/
structure ValidationError where
  message : String
deriving DecidableEq

/-- An Assessment record (spec §3): the immutable result of analyzing one
image. -/
structure Assessment where
  id : String
  createdAt : Nat
  detectionCounts : List (String × Int)
  severity : String
  healthScore : Int
  precautions : List String
deriving DecidableEq

/-- Modelled from the spec: the AssessmentBuilder `build(id, createdAt,
counts)` (spec §4.5) lives in the backend service, which is absent from the
sources; only its demo stand-in `mockAnalyzeImage` and its HTTP callers
appear.  Per the spec it fails with `ValidationError` exactly when `counts`
contains a negative count, and otherwise composes the classifier, scorer and
advisor — taken here from the source's `mockAnalyzeImage`. -/
def build (id : String) (createdAt : Nat) (counts : List (String × Int)) :
    Except ValidationError Assessment :=
  if counts.any (fun kc => kc.2 < 0) then
    .error ⟨"negative count"⟩
  else
    let natCounts : DetectionCounts := counts.map fun kc => (kc.1, kc.2.toNat)
    .ok
      { id := id
        createdAt := createdAt
        detectionCounts := counts
        severity := mockSeverity natCounts
        healthScore := mockScore natCounts
        precautions := mockPrecautions }

/-- The optional source image handed to the exporter: absent, present but
unreadable, or readable with its data URL. -/
inductive ImageSource where
  | absent : ImageSource
  | unreadable : ImageSource
  | readable : String → ImageSource
deriving DecidableEq

/-- The metadata handed to the exporter by `handleDownloadPDF`
(`src/unnamed/part_001` lines 76–89): optional inspection id, optional
filename, optional source image. -/
structure ReportMeta where
  inspectionId : Option String
  filename : Option String
  imageSource : ImageSource
deriving DecidableEq

/-- The portable report document (spec §4.7): severity label, health score,
damages with counts, the precaution list, whether an image was embedded, and
an optional degraded-export warning. -/
structure ReportDoc where
  severityLabel : String
  healthScore : Int
  damages : List (String × Int)
  precautions : List String
  hasImage : Bool
  warning : Option String
deriving DecidableEq

/-- Modelled from the spec: the ReportExporter `generateInspectionReport`
(spec §4.7) lives in `src/frontend/src/utils/pdfGenerator.js`, which is absent
from the sources; only its caller `handleDownloadPDF` is present.  Per the
spec, embedding the source image is optional: when the image is absent or
unreadable the export still completes as a text-only report carrying a
warning, never a hard failure. -/
def exportReport (a : Assessment) (meta : ReportMeta) : ReportDoc :=
  match meta.imageSource with
  | .readable _ =>
      { severityLabel := a.severity
        healthScore := a.healthScore
        damages := a.detectionCounts
        precautions := a.precautions
        hasImage := true
        warning := none }
  | _ =>
      { severityLabel := a.severity
        healthScore := a.healthScore
        damages := a.detectionCounts
        precautions := a.precautions
        hasImage := false
        warning := some "source image missing or unreadable: text-only report" }

/-! ## Helper lemmas -/

lemma foldl_sub_pen (l : DetectionCounts) (init : Int) :
    l.foldl (fun s kc => s - (penalties kc.1 : Int) * kc.2) init
      = init - ((l.map fun kc => (penalties kc.1 : Int) * kc.2).sum) := by
  induction l generalizing init with
  | nil => simp
  | cons kc t ih =>
      rw [List.foldl_cons, ih, List.map_cons, List.sum_cons]
      ring

lemma count_le_countTotal {d : DetectionCounts} {kc : String × Nat}
    (hmem : kc ∈ d) : kc.2 ≤ countTotal d :=
  List.single_le_sum (fun x _ => Nat.zero_le x) _ (List.mem_map_of_mem Prod.snd hmem)

lemma countTotal_eq_zero {d : DetectionCounts} (h : countTotal d = 0) :
    ∀ kc ∈ d, kc.2 = 0 := by
  intro kc hmem
  have := count_le_countTotal hmem
  omega

/-- The health score of the source equals the spec's closed form: 100 minus
the weighted detection counts, clamped below at 0. -/
lemma mockScore_eq (d : DetectionCounts) :
    mockScore d
      = max (100 - ((d.map fun kc => (penalties kc.1 : Int) * kc.2).sum)) 0 := by
  unfold mockScore
  by_cases hpos : 0 < countTotal d
  · rw [if_pos hpos, foldl_sub_pen]
  · rw [if_neg hpos]
    have hz : ∀ kc ∈ d, kc.2 = 0 := countTotal_eq_zero (by omega)
    have hsum : ((d.map fun kc => (penalties kc.1 : Int) * kc.2).sum) = 0 := by
      apply List.sum_eq_zero
      intro x hx
      obtain ⟨kc, hkc, rfl⟩ := List.mem_map.1 hx
      rw [hz kc hkc]
      simp
    rw [hsum]
    norm_num

lemma pen_term_sum_nonneg (d : DetectionCounts) :
    0 ≤ ((d.map fun kc => (penalties kc.1 : Int) * kc.2).sum) := by
  apply List.sum_nonneg
  intro x hx
  obtain ⟨kc, _, rfl⟩ := List.mem_map.1 hx
  positivity

/-! ## Claims C1–C4: the classifier and the scorer -/

/-- C1 counterexample: the claim says a detection mapping containing a kind
with tier hint Critical classifies as Critical regardless of total; the code
classifies `{major_crack: 1}` as `"Moderate"` because `mockAnalyzeImage` has
no tier-hint override — severity depends only on the total count. -/
theorem c1_counterexample :
    tierHintOf "major_crack" = "Critical"
    ∧ mockSeverity [("major_crack", 1)] = "Moderate"
    ∧ ("Moderate" : String) ≠ "Critical" := by
  decide

/-- C1 amended: presence of a Critical-tier kind (major_crack or spalling)
does not override the count threshold: such a mapping classifies as Critical
exactly when the total detection count exceeds 2.  Only the dashboard's
`getDamageType` label treats presence of a structural kind as
"Critical Damage". -/
theorem c1_critical_kind (d : DetectionCounts)
    (h : ∃ kc ∈ d, tierHintOf kc.1 = "Critical" ∧ 1 ≤ kc.2) :
    (mockSeverity d = "Critical" ↔ 2 < countTotal d)
    ∧ getDamageType d = "Critical Damage" := by
  obtain ⟨kc, hmem, htier, hcount⟩ := h
  have hle : kc.2 ≤ countTotal d := count_le_countTotal hmem
  have hpos : 0 < countTotal d := by omega
  constructor
  · unfold mockSeverity
    rw [if_pos hpos]
    by_cases h2 : countTotal d ≤ 2
    · rw [if_pos h2]
      constructor
      · intro hM
        exact absurd hM (by decide)
      · intro hgt
        omega
    · rw [if_neg h2]
      exact ⟨fun _ => by omega, fun _ => rfl⟩
  · have hkind : kc.1 = "major_crack" ∨ kc.1 = "spalling" := by
      by_cases h1 : kc.1 = "major_crack" ∨ kc.1 = "spalling"
      · exact h1
      · exfalso
        unfold tierHintOf at htier
        rw [if_neg h1] at htier
        by_cases h2 : kc.1 = "minor_crack" ∨ kc.1 = "peeling"
        · rw [if_pos h2] at htier
          exact absurd htier (by decide)
        · rw [if_neg h2] at htier
          exact absurd htier (by decide)
    have hlen : d.length ≠ 0 := by
      cases d with
      | nil => cases hmem
      | cons a t => simp
    have hcont : ((d.map Prod.fst).contains "major_crack"
        || (d.map Prod.fst).contains "spalling") = true := by
      rcases hkind with hk | hk
      · have : "major_crack" ∈ d.map Prod.fst := hk ▸ List.mem_map_of_mem Prod.fst hmem
        simp [this]
      · have : "spalling" ∈ d.map Prod.fst := hk ▸ List.mem_map_of_mem Prod.fst hmem
        simp [this]
    unfold getDamageType
    rw [if_neg hlen, if_pos hcont]

/-- C1 amended, witness at `{major_crack: 1}`. -/
theorem c1_critical_kind_witness :
    (mockSeverity [("major_crack", 1)] = "Critical"
        ↔ 2 < countTotal [("major_crack", 1)])
    ∧ getDamageType [("major_crack", 1)] = "Critical Damage" :=
  c1_critical_kind [("major_crack", 1)]
    ⟨("major_crack", 1), by decide, by decide, by decide⟩

/-- C2: the health score equals 100 minus the weighted sum of counts, clamped
below at 0 and never clamped above; the weights are the catalog table and an
unknown kind contributes weight 0.  (`mockScore` embeds api.js lines
105–122.) -/
theorem c2_score_formula :
    (∀ d : DetectionCounts,
        mockScore d
          = max (100 - ((d.map fun kc => (penalties kc.1 : Int) * kc.2).sum)) 0)
    ∧ penalties "major_crack" = 15 ∧ penalties "minor_crack" = 8
    ∧ penalties "spalling" = 20 ∧ penalties "peeling" = 10
    ∧ penalties "algae" = 5 ∧ penalties "stain" = 5 ∧ penalties "normal" = 0
    ∧ ∀ k : String,
        k ∉ ["major_crack", "minor_crack", "spalling", "peeling", "algae",
             "stain", "normal"] → penalties k = 0 := by
  refine ⟨mockScore_eq, by decide, by decide, by decide, by decide, by decide,
    by decide, by decide, ?_⟩
  intro k hk
  simp only [List.mem_cons, List.not_mem_nil, or_false, not_or] at hk
  obtain ⟨h1, h2, h3, h4, h5, h6, h7⟩ := hk
  unfold penalties
  rw [if_neg h1, if_neg h2, if_neg h3, if_neg h4, if_neg h5, if_neg h6,
    if_neg h7]

/-- C2 witness: a mapping with a known and an unknown kind; the unknown kind
contributes weight 0 and the score is `100 - 15*2 = 70`. -/
theorem c2_score_formula_witness :
    mockScore [("major_crack", 2), ("mystery", 5)]
      = max (100 - (((15:Int) * 2) + ((0:Int) * 5 + 0))) 0
    ∧ penalties "mystery" = 0 := by
  refine ⟨?_, c2_score_formula.2.2.2.2.2.2.2.2 "mystery" (by decide)⟩
  have h := c2_score_formula.1 [("major_crack", 2), ("mystery", 5)]
  simpa using h

/-- C3: for every detection-count mapping — empty, with unknown kinds, any
non-negative counts — the health score is within [0, 100]. -/
theorem c3_score_in_range (d : DetectionCounts) :
    0 ≤ mockScore d ∧ mockScore d ≤ 100 := by
  have h := mockScore_eq d
  have hs := pen_term_sum_nonneg d
  rw [h]
  exact ⟨le_max_right _ _, max_le (by omega) (by norm_num)⟩

/-- C4: the count thresholds of the classifier: total 0 is Good with score
100; total 1–2 with no Critical-tier kind present is Moderate; total above 2
is Critical. -/
theorem c4_thresholds (d : DetectionCounts) :
    (countTotal d = 0 → mockSeverity d = "Good" ∧ mockScore d = 100)
    ∧ (1 ≤ countTotal d → countTotal d ≤ 2 →
        (∀ kc ∈ d, tierHintOf kc.1 ≠ "Critical") → mockSeverity d = "Moderate")
    ∧ (2 < countTotal d → mockSeverity d = "Critical") := by
  refine ⟨fun h0 => ⟨?_, ?_⟩, fun h1 h2 _ => ?_, fun h3 => ?_⟩
  · simp [mockSeverity, h0]
  · simp [mockScore, h0]
  · simp [mockSeverity, show 0 < countTotal d by omega, h2]
  · simp [mockSeverity, show 0 < countTotal d by omega,
      show ¬ countTotal d ≤ 2 by omega]

/-- C4 witness: the spec's scenario `{minor_crack: 1, stain: 1}` (total 2, no
Critical-tier kind) is Moderate; the empty mapping is Good with score 100; a
total of 3 is Critical. -/
theorem c4_thresholds_witness :
    (mockSeverity [] = "Good" ∧ mockScore [] = 100)
    ∧ mockSeverity [("minor_crack", 1), ("stain", 1)] = "Moderate"
    ∧ mockSeverity [("stain", 3)] = "Critical" :=
  ⟨(c4_thresholds []).1 (by decide),
   (c4_thresholds [("minor_crack", 1), ("stain", 1)]).2.1 (by decide) (by decide)
     (by decide),
   (c4_thresholds [("stain", 3)]).2.2 (by decide)⟩

/-! ## Helper lemmas for the statistics aggregator -/

/-- The numeric contribution of a record to the score sum: the value of
`insp.health_score || 0` when that is a (non-NaN) number, 0 otherwise. -/
def scoreContrib (i : Inspection) : ℚ :=
  match jsOr i.health_score (JSVal.num (some 0)) with
  | .num (some q) => q
  | _ => 0

lemma jsOr_num_self (q : ℚ) :
    jsOr (JSVal.num (some q)) (JSVal.num (some 0)) = JSVal.num (some q) := by
  by_cases h : q = 0 <;> simp [jsOr, jsTruthy, h]

lemma jsOr_falsy {v : JSVal} (h : jsTruthy v = false) :
    jsOr v (JSVal.num (some 0)) = JSVal.num (some 0) := by
  simp [jsOr, h]

lemma jsOr_health_eq {i : Inspection}
    (h : (∃ q : ℚ, i.health_score = JSVal.num (some q))
        ∨ jsTruthy i.health_score = false) :
    jsOr i.health_score (JSVal.num (some 0))
      = JSVal.num (some (scoreContrib i)) := by
  rcases h with ⟨q, hq⟩ | h
  · simp [scoreContrib, hq, jsOr_num_self]
  · simp [scoreContrib, jsOr_falsy h]

lemma foldl_jsAdd_eq (l : List Inspection) (q0 : ℚ)
    (h : ∀ i ∈ l, jsOr i.health_score (JSVal.num (some 0))
        = JSVal.num (some (scoreContrib i))) :
    l.foldl (fun sum insp => jsAdd sum (jsOr insp.health_score (.num (some 0))))
        (.num (some q0))
      = .num (some (q0 + (l.map scoreContrib).sum)) := by
  induction l generalizing q0 with
  | nil => simp
  | cons i t ih =>
      rw [List.foldl_cons, h i (List.mem_cons_self i t)]
      show t.foldl _ (JSVal.num (some (q0 + scoreContrib i))) = _
      rw [ih _ fun j hj => h j (List.mem_cons_of_mem _ hj), List.map_cons,
        List.sum_cons]
      exact congrArg (fun q => JSVal.num (some q)) (by ring)

/-- Evaluating `computeStats` on a non-empty history whose `health_score || 0`
values are all plain numbers. -/
lemma computeStats_eq (l : List Inspection) (hne : l ≠ [])
    (h : ∀ i ∈ l, jsOr i.health_score (JSVal.num (some 0))
        = JSVal.num (some (scoreContrib i))) :
    computeStats l = some
      { totalInspections := l.length
        averageScore := JSVal.num (some
          ((⌊((l.map scoreContrib).sum / (l.length : ℚ)) + 1/2⌋ : ℤ) : ℚ))
        severityCount :=
          [("Good", (l.filter (fun i => i.severity = "Good")).length),
           ("Moderate", (l.filter (fun i => i.severity = "Moderate")).length),
           ("Critical", (l.filter (fun i => i.severity = "Critical")).length)] } := by
  have hlen : ¬ l.length = 0 := by simpa [List.length_eq_zero] using hne
  have hlenQ : ((l.length : ℚ)) ≠ 0 := Nat.cast_ne_zero.2 hlen
  simp only [computeStats, if_neg hlen, foldl_jsAdd_eq l 0 h, jsDiv, toNumber,
    jsRound]
  rw [if_neg hlenQ]
  simp

/-- Half-up rounding of a mean of naturals as natural-number arithmetic. -/
lemma floor_half_add_div (S L : ℕ) (hL : L ≠ 0) :
    ⌊((S : ℚ) / (L : ℚ)) + 1/2⌋ = (((2 * S + L) / (2 * L) : ℕ) : ℤ) := by
  have hLQ : ((L : ℚ)) ≠ 0 := Nat.cast_ne_zero.2 hL
  have h1 : ((S : ℚ) / L) + 1/2 = ((2 * S + L : ℕ) : ℚ) / ((2 * L : ℕ) : ℚ) := by
    push_cast
    field_simp
    ring
  rw [h1, Rat.floor_natCast_div_natCast]
  exact (Int.ofNat_div _ _).symm

lemma scoreContrib_num {i : Inspection} {q : ℚ}
    (h : i.health_score = JSVal.num (some q)) : scoreContrib i = q := by
  unfold scoreContrib
  rw [h, jsOr_num_self]

lemma map_scoreContrib (l : List Inspection) (scores : List Nat)
    (hs : l.map Inspection.health_score
        = scores.map fun n => JSVal.num (some (Nat.cast n : ℚ))) :
    l.map scoreContrib = scores.map fun n => (Nat.cast n : ℚ) := by
  induction l generalizing scores with
  | nil =>
      cases scores with
      | nil => rfl
      | cons n ns => simp at hs
  | cons i t ih =>
      cases scores with
      | nil => simp at hs
      | cons n ns =>
          rw [List.map_cons, List.map_cons] at hs
          injection hs with h1 h2
          simp only [List.map_cons]
          rw [scoreContrib_num h1, ih ns h2]

lemma filter_three_length (l : List Inspection)
    (hv : ∀ i ∈ l, i.severity = "Good" ∨ i.severity = "Moderate"
        ∨ i.severity = "Critical") :
    (l.filter (fun i => i.severity = "Good")).length
      + (l.filter (fun i => i.severity = "Moderate")).length
      + (l.filter (fun i => i.severity = "Critical")).length = l.length := by
  induction l with
  | nil => simp
  | cons i t ih =>
      have hi := hv i (List.mem_cons_self i t)
      have ht := ih fun j hj => hv j (List.mem_cons_of_mem _ hj)
      rcases hi with h | h | h <;> simp [List.filter_cons, h] <;> omega

/-! ## Claims C5, C6, C10: the statistics aggregator -/

/-- C5: for every non-empty history of assessments (numeric health scores),
`computeStats` reports `totalInspections` equal to the history length and
`averageScore` equal to the mean of the scores rounded half-up (stated as the
natural-number formula `(2*sum + count) / (2*count)`); the empty history
yields the `null` sentinel (`none`), not an error. -/
theorem c5_summarize (l : List Inspection) (scores : List Nat) (hne : l ≠ [])
    (hs : l.map Inspection.health_score
        = scores.map fun n => JSVal.num (some (Nat.cast n : ℚ))) :
    computeStats ([] : List Inspection) = none
    ∧ ∃ s : Stats, computeStats l = some s
        ∧ s.totalInspections = l.length
        ∧ s.averageScore = JSVal.num (some (Nat.cast
            ((2 * scores.sum + scores.length) / (2 * scores.length)) : ℚ)) := by
  have hpt : ∀ i ∈ l, jsOr i.health_score (JSVal.num (some 0))
      = JSVal.num (some (scoreContrib i)) := by
    intro i hi
    apply jsOr_health_eq
    left
    have hmem : i.health_score ∈ l.map Inspection.health_score :=
      List.mem_map_of_mem _ hi
    rw [hs] at hmem
    obtain ⟨n, _, hn⟩ := List.mem_map.1 hmem
    exact ⟨Nat.cast n, hn.symm⟩
  have hlen : l.length = scores.length := by
    have := congrArg List.length hs
    simpa using this
  have hLne : scores.length ≠ 0 := by
    intro h0
    exact hne (List.length_eq_zero.1 (by omega))
  refine ⟨by simp [computeStats], _, computeStats_eq l hne hpt, rfl, ?_⟩
  show JSVal.num _ = JSVal.num _
  rw [map_scoreContrib l scores hs]
  have hsum : ((scores.map fun n => (Nat.cast n : ℚ)).sum)
      = (Nat.cast scores.sum : ℚ) := by
    rw [Nat.cast_list_sum]
  rw [hsum, hlen, floor_half_add_div scores.sum scores.length hLne]
  norm_cast

/-- C5 witness: the spec's scenario — three assessments with scores 90, 70,
50 give `totalCount = 3` and `averageScore = 70`; the empty history gives the
sentinel. -/
theorem c5_summarize_witness :
    computeStats ([] : List Inspection) = none
    ∧ (∃ s : Stats,
        computeStats [⟨.undef, .undef, "Good", .num (some 90)⟩,
                      ⟨.undef, .undef, "Moderate", .num (some 70)⟩,
                      ⟨.undef, .undef, "Critical", .num (some 50)⟩] = some s
        ∧ s.totalInspections
            = ([⟨.undef, .undef, "Good", .num (some 90)⟩,
                ⟨.undef, .undef, "Moderate", .num (some 70)⟩,
                ⟨.undef, .undef, "Critical", .num (some 50)⟩] : List Inspection).length
        ∧ s.averageScore = JSVal.num (some (Nat.cast
            ((2 * ([90, 70, 50] : List Nat).sum + ([90, 70, 50] : List Nat).length)
              / (2 * ([90, 70, 50] : List Nat).length)) : ℚ)))
    ∧ Nat.cast ((2 * ([90, 70, 50] : List Nat).sum + ([90, 70, 50] : List Nat).length)
        / (2 * ([90, 70, 50] : List Nat).length)) = (70 : ℚ) := by
  have h := c5_summarize
    [⟨.undef, .undef, "Good", .num (some 90)⟩,
     ⟨.undef, .undef, "Moderate", .num (some 70)⟩,
     ⟨.undef, .undef, "Critical", .num (some 50)⟩]
    [90, 70, 50] (by decide) (by simp)
  exact ⟨h.1, h.2, by norm_num⟩

lemma computeStats_some_eq {l : List Inspection} {s : Stats}
    (h : computeStats l = some s) :
    s.totalInspections = l.length
    ∧ s.severityCount =
        [("Good", (l.filter (fun i => i.severity = "Good")).length),
         ("Moderate", (l.filter (fun i => i.severity = "Moderate")).length),
         ("Critical", (l.filter (fun i => i.severity = "Critical")).length)] := by
  unfold computeStats at h
  by_cases hl : l.length = 0
  · rw [if_pos hl] at h
    cases h
  · rw [if_neg hl] at h
    obtain rfl := (Option.some.inj h).symm
    exact ⟨rfl, rfl⟩

/-- C6: whenever `computeStats` produces a statistics record for a history of
assessments, the severity histogram carries all three tiers as keys — even
those with count zero — and the three counts sum to `totalInspections`. -/
theorem c6_histogram (l : List Inspection) (s : Stats)
    (h : computeStats l = some s)
    (hv : ∀ i ∈ l, i.severity = "Good" ∨ i.severity = "Moderate"
        ∨ i.severity = "Critical") :
    (∀ t ∈ (["Good", "Moderate", "Critical"] : List String),
        ∃ n : Nat, (t, n) ∈ s.severityCount)
    ∧ (s.severityCount.map Prod.snd).sum = s.totalInspections := by
  obtain ⟨htot, hsc⟩ := computeStats_some_eq h
  constructor
  · intro t ht
    simp only [List.mem_cons, List.not_mem_nil, or_false] at ht
    rw [hsc]
    rcases ht with rfl | rfl | rfl
    · exact ⟨(l.filter (fun i => i.severity = "Good")).length, by simp⟩
    · exact ⟨(l.filter (fun i => i.severity = "Moderate")).length, by simp⟩
    · exact ⟨(l.filter (fun i => i.severity = "Critical")).length, by simp⟩
  · have hpart := filter_three_length l hv
    rw [hsc, htot]
    simp only [List.map_cons, List.map_nil, List.sum_cons, List.sum_nil]
    omega

/-- C6 witness: a one-record history with severity Good — the histogram keeps
all three keys (Moderate and Critical at zero) and the counts sum to 1. -/
theorem c6_histogram_witness :
    (∀ t ∈ (["Good", "Moderate", "Critical"] : List String),
        ∃ n : Nat, (t, n) ∈ (Stats.mk 1 (JSVal.num (some 0))
          [("Good", 1), ("Moderate", 0), ("Critical", 0)]).severityCount)
    ∧ ((Stats.mk 1 (JSVal.num (some 0))
          [("Good", 1), ("Moderate", 0), ("Critical", 0)]).severityCount.map
            Prod.snd).sum
        = (Stats.mk 1 (JSVal.num (some 0))
            [("Good", 1), ("Moderate", 0), ("Critical", 0)]).totalInspections :=
  c6_histogram [⟨.undef, .undef, "Good", .undef⟩]
    (Stats.mk 1 (JSVal.num (some 0)) [("Good", 1), ("Moderate", 0), ("Critical", 0)])
    (by simp [computeStats, jsAdd, jsOr, jsTruthy, toNumber, jsDiv, jsRound]
        norm_num)
    (by intro i hi
        obtain rfl := List.mem_singleton.mp hi
        left
        rfl)

/-- C10 counterexample: the claim says a non-numeric `health_score`
contributes 0 to the score sum; for the truthy non-numeric score `"abc"` the
code instead concatenates it into the sum (`0 + "abc" = "0abc"`), whose
`ToNumber` is NaN, so `averageScore` becomes NaN rather than the 0 the claim
predicts. -/
theorem c10_counterexample :
    (computeStats [⟨.undef, .undef, "Good", .str "abc"⟩]).map Stats.averageScore
      = some (JSVal.num none)
    ∧ JSVal.num none ≠ JSVal.num (some 0) := by
  decide

/-- C10 amended: a falsy `health_score` (missing/`undefined`, `null`, 0, NaN,
the empty string) contributes 0 to the score sum while the record still
counts toward `totalInspections`; only a truthy non-numeric score escapes
this treatment. -/
theorem c10_falsy_scores (l : List Inspection) (hne : l ≠ [])
    (hv : ∀ i ∈ l, (∃ q : ℚ, i.health_score = JSVal.num (some q))
        ∨ jsTruthy i.health_score = false) :
    (∀ i ∈ l, jsTruthy i.health_score = false → scoreContrib i = 0)
    ∧ ∃ s : Stats, computeStats l = some s
        ∧ s.totalInspections = l.length
        ∧ s.averageScore = JSVal.num (some
            ((⌊((l.map scoreContrib).sum / (l.length : ℚ)) + 1/2⌋ : ℤ) : ℚ)) := by
  refine ⟨?_, _, computeStats_eq l hne (fun i hi => jsOr_health_eq (hv i hi)),
    rfl, rfl⟩
  intro i _ hf
  unfold scoreContrib
  rw [jsOr_falsy hf]

/-- C10 amended, witness: a single record with `undefined` health score is
counted (total 1) and contributes 0. -/
theorem c10_falsy_scores_witness :
    (∀ i ∈ ([⟨.undef, .undef, "Good", .undef⟩] : List Inspection),
        jsTruthy i.health_score = false → scoreContrib i = 0)
    ∧ ∃ s : Stats,
        computeStats [⟨.undef, .undef, "Good", .undef⟩] = some s
        ∧ s.totalInspections
            = ([⟨.undef, .undef, "Good", .undef⟩] : List Inspection).length
        ∧ s.averageScore = JSVal.num (some
            ((⌊((([⟨.undef, .undef, "Good", .undef⟩] : List Inspection).map
                  scoreContrib).sum
                / ((([⟨.undef, .undef, "Good", .undef⟩] : List Inspection).length : ℚ)))
                + 1/2⌋ : ℤ) : ℚ)) :=
  c10_falsy_scores [⟨.undef, .undef, "Good", .undef⟩] (by decide)
    (fun i hi => Or.inr (by obtain rfl := List.mem_singleton.mp hi; rfl))

/-! ## Claim C7: history removal -/

/-- A record used by the C7 counterexample: two history entries share the
identifier `"a"`. -/
def dupRecord : Inspection :=
  ⟨.str "a", .undef, "Good", .num (some 90)⟩

/-- C7 counterexample: the claim says `remove` removes exactly one record;
the code filters out every match, so a history with two records carrying the
same identifier loses both. -/
theorem c7_counterexample :
    removeInspection [dupRecord, dupRecord] (.str "a") = []
    ∧ ([dupRecord, dupRecord] : List Inspection).length = 2
    ∧ (removeInspection [dupRecord, dupRecord] (.str "a")).length
        ≠ ([dupRecord, dupRecord] : List Inspection).length - 1 := by
  decide

/-- C7 amended: `remove` keeps exactly the entries whose identifier
(`_id || id`) is not strictly equal to the target; hence it removes all
matching records (exactly one when exactly one matches), returns the history
unchanged when none matches, and is idempotent. -/
theorem c7_remove (l : List Inspection) (targetId : JSVal) :
    removeInspection (removeInspection l targetId) targetId
        = removeInspection l targetId
    ∧ ((∀ i ∈ l, jsStrictEq (jsOr i._id i.id) targetId = false) →
        removeInspection l targetId = l)
    ∧ (∀ i : Inspection, i ∈ removeInspection l targetId
        ↔ i ∈ l ∧ jsStrictEq (jsOr i._id i.id) targetId = false)
    ∧ ((l.filter fun i => jsStrictEq (jsOr i._id i.id) targetId).length = 1 →
        (removeInspection l targetId).length = l.length - 1) := by
  refine ⟨?_, ?_, ?_, ?_⟩
  · unfold removeInspection
    rw [List.filter_filter]
    simp
  · intro hnm
    apply List.filter_eq_self.2
    intro a ha
    simp [hnm a ha]
  · intro i
    unfold removeInspection
    rw [List.mem_filter]
    simp
  · intro h1
    unfold removeInspection
    have hpart := List.length_eq_length_filter_add
      (l := l) (fun i => jsStrictEq (jsOr i._id i.id) targetId)
    rw [h1] at hpart
    simpa using by omega

/-- C7 amended, witness: removing identifier `"a"` from a two-record history
with distinct identifiers `"a"`, `"b"` removes exactly the one matching
record; removing a non-present identifier from the remainder is a no-op, and
the removal is idempotent. -/
theorem c7_remove_witness :
    removeInspection (removeInspection [dupRecord,
        ⟨.str "b", .undef, "Good", .num (some 80)⟩] (.str "a")) (.str "a")
      = removeInspection [dupRecord,
          ⟨.str "b", .undef, "Good", .num (some 80)⟩] (.str "a")
    ∧ removeInspection [⟨.str "b", .undef, "Good", .num (some 80)⟩] (.str "a")
        = [⟨.str "b", .undef, "Good", .num (some 80)⟩]
    ∧ (dupRecord ∈ removeInspection [dupRecord,
          ⟨.str "b", .undef, "Good", .num (some 80)⟩] (.str "a")
        ↔ dupRecord ∈ ([dupRecord, ⟨.str "b", .undef, "Good", .num (some 80)⟩]
            : List Inspection)
          ∧ jsStrictEq (jsOr dupRecord._id dupRecord.id) (.str "a") = false)
    ∧ (removeInspection [dupRecord,
          ⟨.str "b", .undef, "Good", .num (some 80)⟩] (.str "a")).length
        = ([dupRecord, ⟨.str "b", .undef, "Good", .num (some 80)⟩]
            : List Inspection).length - 1 :=
  ⟨(c7_remove [dupRecord, ⟨.str "b", .undef, "Good", .num (some 80)⟩]
      (.str "a")).1,
   (c7_remove [⟨.str "b", .undef, "Good", .num (some 80)⟩] (.str "a")).2.1
      (by decide),
   (c7_remove [dupRecord, ⟨.str "b", .undef, "Good", .num (some 80)⟩]
      (.str "a")).2.2.1 dupRecord,
   (c7_remove [dupRecord, ⟨.str "b", .undef, "Good", .num (some 80)⟩]
      (.str "a")).2.2.2 (by decide)⟩

/-! ## Claims C8 and C9: builder validation and export degradation -/

/-- C8: building an assessment fails with `ValidationError` iff the count
mapping contains a negative count; every mapping with only non-negative
counts — unknown kinds and the empty mapping included — yields a normal
Assessment composed from the source's classifier and scorer. -/
theorem c8_validation (idStr : String) (t : Nat) (counts : List (String × Int)) :
    ((∃ e : ValidationError, build idStr t counts = Except.error e)
        ↔ ∃ kc ∈ counts, kc.2 < 0)
    ∧ ((∀ kc ∈ counts, 0 ≤ kc.2) → ∃ a : Assessment,
        build idStr t counts = Except.ok a
        ∧ a.severity = mockSeverity (counts.map fun kc => (kc.1, kc.2.toNat))
        ∧ a.healthScore = mockScore (counts.map fun kc => (kc.1, kc.2.toNat))
        ∧ a.precautions = mockPrecautions) := by
  constructor
  · constructor
    · rintro ⟨e, he⟩
      unfold build at he
      by_cases hneg : counts.any (fun kc => kc.2 < 0)
      · rw [List.any_eq_true] at hneg
        obtain ⟨kc, hkc, hlt⟩ := hneg
        exact ⟨kc, hkc, by simpa using hlt⟩
      · rw [if_neg hneg] at he
        cases he
    · rintro ⟨kc, hkc, hlt⟩
      refine ⟨⟨"negative count"⟩, ?_⟩
      unfold build
      rw [if_pos (List.any_eq_true.2 ⟨kc, hkc, by simpa using hlt⟩)]
  · intro hnn
    unfold build
    rw [if_neg fun hcon => ?_]
    · exact ⟨_, rfl, rfl, rfl, rfl⟩
    · rw [List.any_eq_true] at hcon
      obtain ⟨kc, hkc, hlt⟩ := hcon
      have := hnn kc hkc
      simp at hlt
      omega

/-- C8 witness: a mapping with a negative count is rejected; the spec's
irregular-but-valid inputs (a known kind with positive count) build
normally. -/
theorem c8_validation_witness :
    (∃ e : ValidationError,
        build "a1" 0 [("major_crack", -1)] = Except.error e)
    ∧ ∃ a : Assessment, build "a2" 0 [("stain", 2)] = Except.ok a
        ∧ a.severity = mockSeverity
            (([("stain", 2)] : List (String × Int)).map fun kc => (kc.1, kc.2.toNat))
        ∧ a.healthScore = mockScore
            (([("stain", 2)] : List (String × Int)).map fun kc => (kc.1, kc.2.toNat))
        ∧ a.precautions = mockPrecautions :=
  ⟨(c8_validation "a1" 0 [("major_crack", -1)]).1.2
      ⟨("major_crack", -1), by decide, by decide⟩,
   (c8_validation "a2" 0 [("stain", 2)]).2 (by decide)⟩

/-- C9: exporting an assessment completes even when the source image is
absent or unreadable: the result is a text-only report (no embedded image)
carrying a warning, with the full severity label, health score, damages and
precaution list — never a hard failure. -/
theorem c9_export_degrades (a : Assessment) (meta : ReportMeta)
    (h : meta.imageSource = ImageSource.absent
        ∨ meta.imageSource = ImageSource.unreadable) :
    (exportReport a meta).warning.isSome = true
    ∧ (exportReport a meta).hasImage = false
    ∧ (exportReport a meta).severityLabel = a.severity
    ∧ (exportReport a meta).healthScore = a.healthScore
    ∧ (exportReport a meta).damages = a.detectionCounts
    ∧ (exportReport a meta).precautions = a.precautions := by
  rcases h with h | h <;> simp [exportReport, h]

/-- C9 witness: a concrete assessment exported with an absent source image
degrades to a warned text-only report carrying all report fields. -/
theorem c9_export_degrades_witness :
    (exportReport ⟨"a1", 0, [("stain", 2)], "Moderate", 90, mockPrecautions⟩
        ⟨none, none, .absent⟩).warning.isSome = true
    ∧ (exportReport ⟨"a1", 0, [("stain", 2)], "Moderate", 90, mockPrecautions⟩
        ⟨none, none, .absent⟩).hasImage = false
    ∧ (exportReport ⟨"a1", 0, [("stain", 2)], "Moderate", 90, mockPrecautions⟩
        ⟨none, none, .absent⟩).severityLabel
      = (⟨"a1", 0, [("stain", 2)], "Moderate", 90, mockPrecautions⟩ : Assessment).severity
    ∧ (exportReport ⟨"a1", 0, [("stain", 2)], "Moderate", 90, mockPrecautions⟩
        ⟨none, none, .absent⟩).healthScore
      = (⟨"a1", 0, [("stain", 2)], "Moderate", 90, mockPrecautions⟩ : Assessment).healthScore
    ∧ (exportReport ⟨"a1", 0, [("stain", 2)], "Moderate", 90, mockPrecautions⟩
        ⟨none, none, .absent⟩).damages
      = (⟨"a1", 0, [("stain", 2)], "Moderate", 90, mockPrecautions⟩ : Assessment).detectionCounts
    ∧ (exportReport ⟨"a1", 0, [("stain", 2)], "Moderate", 90, mockPrecautions⟩
        ⟨none, none, .absent⟩).precautions
      = (⟨"a1", 0, [("stain", 2)], "Moderate", 90, mockPrecautions⟩ : Assessment).precautions :=
  c9_export_degrades ⟨"a1", 0, [("stain", 2)], "Moderate", 90, mockPrecautions⟩
    ⟨none, none, .absent⟩ (Or.inl rfl)

end SmartBuild
